import Mathlib

/-!
# Verification of the `metatype` crate (src/lib.rs)

A shallow embedding of the `metatype` Rust library.  The library classifies
every type as `TraitObject`, `Slice` or `Concrete` (via specialization: a
default `impl<T: ?Sized> Type for T` overridden by `impl<T: Sized> Type for T`,
`impl<T: Sized> Type for [T]` and `impl Type for str`), decomposes references
into a data address plus shape-specific metadata, reconstructs references with
`fatten`, builds dangling pointers with `dangling`, and offers the utilities
`transmute_coerce`, `type_coerce`, `try_type_coerce` and `type_id`.

Modelling conventions:
* Addresses are `Nat`; a thin pointer is its address.
* A `*const [T]` / `*const str` is a `SlicePtr` (address, element count);
  a `*const dyn Trait` is a `DynPtr` (address, vtable reference).
* A vtable reference is modelled by the layout information Rust stores in the
  pointed-to vtable (the alignment that `align_of_val` reads through it).
* Rust panics/aborts (`assert_eq!`, `panic!`, `unwrap`) are modelled by
  `Option.none` / `Except.error`.
* `size_of_val` / `align_of_val` results are passed to `meta` as explicit
  arguments: they are answers of the runtime environment which the source
  re-checks with `assert_eq!`.  The functions `size_of_val` / `align_of_val`
  defined per impl give the values the Rust layout rules guarantee for a live
  reference.
-/

namespace Metatype

/-- Enum `MetaType` of src/lib.rs (lines 82-90): whether a type is
`TraitObject`, `Slice` or `Concrete`. -/
inductive MetaType where
  | TraitObject
  | Slice
  | Concrete
deriving DecidableEq, Repr

/-- The vtable a trait-object pointer carries: modelled by the layout data the
real vtable stores and `align_of_val` reads through the reference. -/
structure VTable where
  size : Nat
  align : Nat
deriving DecidableEq, Repr

/-- Struct `TraitObject` (lines 93-97): metadata for a trait object, the
address of its vtable. -/
structure TraitObject where
  vtable : VTable
deriving DecidableEq, Repr

/-- Struct `Slice` (lines 99-103): metadata for a slice, the number of
elements. -/
structure Slice where
  len : Nat
deriving DecidableEq, Repr

/-- Struct `Concrete` (lines 105-106): empty metadata of a sized type. -/
structure Concrete where
deriving DecidableEq, Repr

/-- A universe of Rust types over which the generic items are instantiated:
integer primitives, arrays, slices, `str` and trait objects. -/
inductive Ty where
  | int (bits : Nat)
  | array (elem : Ty) (n : Nat)
  | slice (elem : Ty)
  | strT
  | dynTrait (name : String)
deriving DecidableEq, Repr

/-- `T: Sized` in Rust: the size of the type is statically known. -/
def sized : Ty → Bool
  | .int _ => true
  | .array e _ => sized e
  | .slice _ => false
  | .strT => false
  | .dynTrait _ => false

/-- Whether a type is of the form `[T]`. -/
def isSliceTy : Ty → Bool
  | .slice _ => true
  | _ => false

/-- Whether a type is `[T]` or `str`, the two `Slice`-shaped impls. -/
def isSliceOrStr (t : Ty) : Bool :=
  isSliceTy t || t == Ty.strT

/-- `std::any::type_name`: a printable name for each type in the universe. -/
def tyName : Ty → String
  | .int n => "i" ++ toString n
  | .array e n => "[" ++ tyName e ++ "; " ++ toString n ++ "]"
  | .slice e => "[" ++ tyName e ++ "]"
  | .strT => "str"
  | .dynTrait s => "dyn " ++ s

/-- Interpretation of the type universe as carriers of values (used by the
coercion utilities, which move a value across a type-parameter boundary). -/
def Val : Ty → Type
  | .int _ => Int
  | .array e _ => List (Val e)
  | .slice e => List (Val e)
  | .strT => String
  | .dynTrait _ => Unit

/-- The layout facts `transmute_coerce` checks about a type parameter:
`type_name`, `size_of` and `align_of`. -/
structure RustLayout where
  name : String
  size : Nat
  align : Nat
deriving DecidableEq, Repr

/-- `transmute_coerce` (lines 235-246): asserts that the two types have equal
size and equal alignment — on mismatch it panics with a message naming both
types (source text: "can't transmute_coerce A to B as sizes/alignments
differ") — and then reinterprets the bits via `transmute_copy`.  The bit
pattern is `a : α`; when the check passes the same bits are returned. -/
def transmute_coerce {α : Type} (A B : RustLayout) (a : α) : Except String α :=
  if (A.size, A.align) = (B.size, B.align) then
    Except.ok a
  else
    Except.error ("cant transmute_coerce " ++ A.name ++ " to " ++ B.name ++
      " as sizes/alignments differ")

/-- `try_type_coerce` (lines 263-283): specialization chooses
`impl<A> Eq<A> for Foo<A, A>` (returning `Some(self.0)`) exactly when the two
type parameters are the identical type, and the default impl (returning
`None`) otherwise. -/
def try_type_coerce (A B : Ty) (a : Val A) : Option (Val B) :=
  if h : A = B then some (cast (congrArg Val h) a) else none

/-- `type_coerce` (lines 253-256): `try_type_coerce(a).unwrap_or_else(|| panic!(...))`;
the panic message (source text: "can't coerce A to B") names both type names. -/
def type_coerce (A B : Ty) (a : Val A) : Except String (Val B) :=
  match try_type_coerce A B a with
  | some b => Except.ok b
  | none => Except.error ("cant coerce " ++ tyName A ++ " to " ++ tyName B)

/-- `type_id` (lines 288-293): feed `TypeId::of::<T>()` into a freshly created
`DefaultHasher` and return `finish`.  `TypeId::of` (the canonical per-type
token) and the `DefaultHasher` operations (`new`, the `Hash` step, `finish`)
are language/std facilities, passed in as parameters `typeIdOf`, `newState`,
`write`, `finish`. -/
def type_id (typeIdOf : Ty → Nat) (newState : Nat) (write : Nat → Nat → Nat)
    (finish : Nat → Nat) (t : Ty) : Nat :=
  let ty_id := typeIdOf t
  let hasher := newState
  let hasher := write hasher ty_id
  finish hasher

/-! ## The `impl<T: Sized> Type for T` specialization (lines 156-177) -/

namespace SizedImpl

/-- `METATYPE` of the sized impl (line 157). -/
def METATYPE : MetaType := MetaType.Concrete

/-- `meta` (lines 160-162): a sized type has empty metadata. -/
def meta (_p : Nat) : Concrete := ⟨⟩

/-- `data` (lines 164-166): the pointer cast to `*const ()`. -/
def data (p : Nat) : Nat := p

/-- `dangling` (lines 171-173): `NonNull::dangling()`, whose address is
`align_of::<T>()`. -/
def dangling (align : Nat) (_t : Concrete) : Nat := align

/-- `fatten` (lines 174-176): `thin.cast()`, the thin pointer itself. -/
def fatten (thin : Nat) (_t : Concrete) : Nat := thin

end SizedImpl

/-! ## The `impl<T: Sized> Type for [T]` specialization (lines 179-207) -/

/-- A fat pointer `*const [T]` or `*const str`: data address plus element
count. -/
structure SlicePtr where
  addr : Nat
  len : Nat
deriving DecidableEq, Repr

namespace SliceImpl

/-- `METATYPE` of the `[T]` impl (line 180). -/
def METATYPE : MetaType := MetaType.Slice

/-- What Rust guarantees `size_of_val` returns on a live `&[T]` with element
size `esize`: `esize * len`. -/
def size_of_val (esize : Nat) (p : SlicePtr) : Nat := esize * p.len

/-- What Rust guarantees `align_of_val` returns on a live `&[T]` with element
alignment `ealign`: `ealign`. -/
def align_of_val (ealign : Nat) (_p : SlicePtr) : Nat := ealign

/-- `meta` (lines 184-191): `assert_eq!((size_of_val(self_), align_of_val(self_)),
(size_of::<T>() * self_.len(), align_of::<T>()))`, then `Slice { len }`.
`sizeOfVal`/`alignOfVal` are the environment-reported layout of the referent;
`none` models the `assert_eq!` panic. -/
def meta (esize ealign : Nat) (p : SlicePtr) (sizeOfVal alignOfVal : Nat) :
    Option Slice :=
  if (sizeOfVal, alignOfVal) = (esize * p.len, ealign) then
    some ⟨p.len⟩
  else
    none

/-- `data` (lines 193-195): the pointer cast to `*const ()`, i.e. the data
address. -/
def data (p : SlicePtr) : Nat := p.addr

/-- `dangling` (lines 200-203): `slice_from_raw_parts_mut(NonNull::<T>::dangling()
.as_ptr(), t.len)`; `NonNull::<T>::dangling()` has address `align_of::<T>()`,
and `new_unchecked` performs no check. -/
def dangling (ealign : Nat) (t : Slice) : SlicePtr := ⟨ealign, t.len⟩

/-- `fatten` (lines 204-206): `slice_from_raw_parts_mut(thin.cast(), t.len)`. -/
def fatten (thin : Nat) (t : Slice) : SlicePtr := ⟨thin, t.len⟩

end SliceImpl

/-! ## The `impl Type for str` specialization (lines 209-233) -/

namespace StrImpl

/-- `METATYPE` of the `str` impl (line 210). -/
def METATYPE : MetaType := MetaType.Slice

/-- What Rust guarantees `size_of_val` returns on a live `&str`: its byte
length. -/
def size_of_val (p : SlicePtr) : Nat := p.len

/-- What Rust guarantees `align_of_val` returns on a live `&str`: 1. -/
def align_of_val (_p : SlicePtr) : Nat := 1

/-- `meta` (lines 213-217): `assert_eq!((size_of_val(self_), align_of_val(self_)),
(self_.len(), 1))`, then `Slice { len }`; `none` models the panic. -/
def meta (p : SlicePtr) (sizeOfVal alignOfVal : Nat) : Option Slice :=
  if (sizeOfVal, alignOfVal) = (p.len, 1) then
    some ⟨p.len⟩
  else
    none

/-- `data` (lines 219-221). -/
def data (p : SlicePtr) : Nat := p.addr

/-- `dangling` (lines 226-229): `<[u8]>::dangling(t)` reinterpreted, with
`align_of::<u8>() = 1`. -/
def dangling (t : Slice) : SlicePtr := SliceImpl.dangling 1 t

/-- `fatten` (lines 230-232): `<[u8]>::fatten(thin, t)` reinterpreted. -/
def fatten (thin : Nat) (t : Slice) : SlicePtr := SliceImpl.fatten thin t

end StrImpl

/-! ## The default `impl<T: ?Sized> Type for T` (lines 108-154), the trait
object case -/

/-- A fat pointer `*const dyn Trait`: data address plus vtable reference. -/
structure DynPtr where
  addr : Nat
  vtable : VTable
deriving DecidableEq, Repr

/-- Size of a pointer on the modelled (64-bit) target. -/
def ptrSize : Nat := 8

/-- Alignment of a pointer on the modelled target. -/
def ptrAlign : Nat := 8

/-- Layout of `DynMetadata<T>` (a pointer to the vtable). -/
def DynMetadataLayout : RustLayout := ⟨"DynMetadata", ptrSize, ptrAlign⟩

/-- Layout of `&'static ()` (the `vtable` field of `TraitObject`). -/
def StaticRefUnitLayout : RustLayout := ⟨"ref static unit", ptrSize, ptrAlign⟩

/-- Layout of `*mut ()`. -/
def MutPtrUnitLayout : RustLayout := ⟨"mut ptr unit", ptrSize, ptrAlign⟩

namespace DynImpl

/-- `default const METATYPE` (line 110): the default for every type not
covered by a more specific impl. -/
def METATYPE : MetaType := MetaType.TraitObject

/-- `meta` (lines 114-119): `TraitObject { vtable: transmute_coerce(
std::ptr::metadata(self)) }` — `ptr::metadata` of a trait-object pointer is
its vtable reference, reinterpreted from `DynMetadata<T>` to `&'static ()`
through the checked `transmute_coerce`.  (The surrounding `type_coerce` calls
bridge `Self::Meta = TraitObject`, an identity here.) -/
def meta (p : DynPtr) : Except String TraitObject :=
  (transmute_coerce DynMetadataLayout StaticRefUnitLayout p.vtable).map
    TraitObject.mk

/-- `data` (lines 121-123): the pointer cast to `*const ()`, the data
address. -/
def data (p : DynPtr) : Nat := p.addr

/-- `align_of_val` on a trait-object reference: Rust reads the alignment
stored in the vtable. -/
def align_of_val (p : DynPtr) : Nat := p.vtable.align

/-- `fatten` (lines 148-153): `from_raw_parts_mut(thin, transmute_coerce(vtable))`,
reinterpreting the `*mut ()` vtable pointer back to `DynMetadata<T>` through
the checked `transmute_coerce`. -/
def fatten (thin : Nat) (t : TraitObject) : Except String DynPtr :=
  (transmute_coerce MutPtrUnitLayout DynMetadataLayout t.vtable).map
    (fun v => ⟨thin, v⟩)

/-- `dangling` (lines 129-146): build a probe reference from the address of a
64-byte-aligned static `BACKING` (here the parameter `backing`) and the
metadata, measure `align_of_val` through the probe, then `fatten` the measured
alignment as the address.  Each `NonNull::new(...).unwrap()` panics
(`Except.error`) if the fat pointer is null. -/
def dangling (backing : Nat) (t : TraitObject) : Except String DynPtr :=
  match fatten backing t with
  | Except.error e => Except.error e
  | Except.ok dangling_unaligned =>
    if dangling_unaligned.addr = 0 then
      Except.error "called Option unwrap on a None value"
    else
      match fatten (align_of_val dangling_unaligned) t with
      | Except.error e => Except.error e
      | Except.ok final =>
        if final.addr = 0 then
          Except.error "called Option unwrap on a None value"
        else
          Except.ok final

end DynImpl

/-! ## Specialization resolution of `METATYPE` -/

/-- The `METATYPE` the compiler resolves for a type `t`: the most specific
applicable impl wins — `impl<T: Sized> Type for T` when `t` is sized,
`impl<T: Sized> Type for [T]` for slices, `impl Type for str` for `str`, and
the `impl<T: ?Sized> Type for T` default (`TraitObject`) otherwise. -/
def resolvedMETATYPE (t : Ty) : MetaType :=
  if sized t then SizedImpl.METATYPE
  else if isSliceTy t then SliceImpl.METATYPE
  else if t = Ty.strT then StrImpl.METATYPE
  else DynImpl.METATYPE

end Metatype

namespace Metatype

/-! ## Theorems -/

/-- C2: the shape classifier is total (a function on the type universe) and
assigns exactly one shape: a type is classified `Concrete` iff its size is
statically known, `[T]` and `str` are classified `Slice`, every other
statically-size-unknown type falls to the `TraitObject` default, and the
sized/slice classifications never overlap (the specific impl wins over the
generic default). -/
theorem resolvedMETATYPE_classification (t : Ty) :
    (sized t = true ↔ resolvedMETATYPE t = MetaType.Concrete) ∧
    (isSliceOrStr t = true → resolvedMETATYPE t = MetaType.Slice) ∧
    (sized t = false ∧ isSliceOrStr t = false →
      resolvedMETATYPE t = MetaType.TraitObject) ∧
    ¬(sized t = true ∧ isSliceOrStr t = true) := by
  rcases t with n | ⟨e, n⟩ | e | _ | s
  · simp [resolvedMETATYPE, sized, isSliceOrStr, isSliceTy, SizedImpl.METATYPE,
      SliceImpl.METATYPE, StrImpl.METATYPE, DynImpl.METATYPE]
  · by_cases hs : sized e = true <;>
      simp [resolvedMETATYPE, sized, hs, isSliceOrStr, isSliceTy,
        SizedImpl.METATYPE, SliceImpl.METATYPE, StrImpl.METATYPE,
        DynImpl.METATYPE]
  · simp [resolvedMETATYPE, sized, isSliceOrStr, isSliceTy, SizedImpl.METATYPE,
      SliceImpl.METATYPE, StrImpl.METATYPE, DynImpl.METATYPE]
  · simp [resolvedMETATYPE, sized, isSliceOrStr, isSliceTy, SizedImpl.METATYPE,
      SliceImpl.METATYPE, StrImpl.METATYPE, DynImpl.METATYPE]
  · simp [resolvedMETATYPE, sized, isSliceOrStr, isSliceTy, SizedImpl.METATYPE,
      SliceImpl.METATYPE, StrImpl.METATYPE, DynImpl.METATYPE]

/-- Witness for C2 at concrete types: `i64` is `Concrete`, `[i8]` and `str`
are `Slice`, `dyn Any` is `TraitObject`. -/
theorem resolvedMETATYPE_classification_witness :
    resolvedMETATYPE (Ty.int 64) = MetaType.Concrete ∧
    resolvedMETATYPE (Ty.slice (Ty.int 8)) = MetaType.Slice ∧
    resolvedMETATYPE Ty.strT = MetaType.Slice ∧
    resolvedMETATYPE (Ty.dynTrait "Any") = MetaType.TraitObject := by
  refine ⟨(resolvedMETATYPE_classification (Ty.int 64)).1.mp (by decide),
    (resolvedMETATYPE_classification (Ty.slice (Ty.int 8))).2.1 (by decide),
    (resolvedMETATYPE_classification Ty.strT).2.1 (by decide),
    (resolvedMETATYPE_classification (Ty.dynTrait "Any")).2.2.1 (by decide)⟩

/-- C3: `try_type_coerce` returns `some` of the original value, unchanged,
exactly when the two type parameters are the identical type, and `none`
otherwise; it is a pure total function (no panic, no side effect). -/
theorem try_type_coerce_iff (A B : Ty) (a : Val A) :
    (∀ h : A = B, try_type_coerce A B a = some (cast (congrArg Val h) a)) ∧
    (A ≠ B → try_type_coerce A B a = none) ∧
    ((try_type_coerce A B a).isSome = true ↔ A = B) := by
  refine ⟨?_, ?_, ?_⟩
  · intro h
    subst h
    rw [try_type_coerce, dif_pos rfl]
  · intro h
    rw [try_type_coerce, dif_neg h]
  · by_cases h : A = B
    · subst h
      rw [try_type_coerce, dif_pos rfl]
      simp
    · rw [try_type_coerce, dif_neg h]
      simp [h]

/-- Witness for C3: `try_type_coerce::<i32, i32>(5) = Some(5)` and
`try_type_coerce::<i32, i64>(5) = None`. -/
theorem try_type_coerce_iff_witness :
    try_type_coerce (Ty.int 32) (Ty.int 32) (5 : Int) = some (5 : Int) ∧
    try_type_coerce (Ty.int 32) (Ty.int 64) (5 : Int) = none := by
  constructor
  · have h := (try_type_coerce_iff (Ty.int 32) (Ty.int 32) (5 : Int)).1 rfl
    simpa using h
  · exact (try_type_coerce_iff (Ty.int 32) (Ty.int 64) (5 : Int)).2.1
      (by decide)

/-- C4: `fatten` per shape — for a sized type it returns the thin address
itself (ignoring the empty metadata), and for `[T]` and `str` it returns the
fat pointer whose data address is `thin` and whose length is exactly the
requested metadata length, for every requested length. -/
theorem fatten_per_shape (thin : Nat) (m : Concrete) (t : Slice) :
    SizedImpl.fatten thin m = thin ∧
    SliceImpl.fatten thin t = ⟨thin, t.len⟩ ∧
    StrImpl.fatten thin t = ⟨thin, t.len⟩ :=
  ⟨rfl, rfl, rfl⟩

/-- C1: round trip — for a live reference of any shape,
`fatten (data r) (meta r)` is the original pointer: same data address and
same metadata (empty for `Concrete`, the same `len` for `[T]` and `str`, the
same vtable for a trait object).  For the `Slice`-shaped impls, `meta` is
evaluated at the `size_of_val`/`align_of_val` answers Rust guarantees for a
live reference, and its layout assertion passes. -/
theorem fatten_data_meta_roundtrip (p : Nat) (sp : SlicePtr) (dp : DynPtr)
    (esize ealign : Nat) :
    SizedImpl.fatten (SizedImpl.data p) (SizedImpl.meta p) = p ∧
    (SliceImpl.meta esize ealign sp (SliceImpl.size_of_val esize sp)
        (SliceImpl.align_of_val ealign sp) = some ⟨sp.len⟩ ∧
      SliceImpl.fatten (SliceImpl.data sp) ⟨sp.len⟩ = sp) ∧
    (StrImpl.meta sp (StrImpl.size_of_val sp) (StrImpl.align_of_val sp) =
        some ⟨sp.len⟩ ∧
      StrImpl.fatten (StrImpl.data sp) ⟨sp.len⟩ = sp) ∧
    (DynImpl.meta dp = Except.ok ⟨dp.vtable⟩ ∧
      DynImpl.fatten (DynImpl.data dp) ⟨dp.vtable⟩ = Except.ok dp) := by
  refine ⟨rfl, ⟨?_, rfl⟩, ⟨?_, rfl⟩, ⟨rfl, rfl⟩⟩
  · simp [SliceImpl.meta, SliceImpl.size_of_val, SliceImpl.align_of_val]
  · simp [StrImpl.meta, StrImpl.size_of_val, StrImpl.align_of_val]

/-- C5: `meta` of the `Slice`-shaped impls checks the layout invariant against
the environment-reported `size_of_val`/`align_of_val` and faults (`none`,
modelling the `assert_eq!` panic) exactly when it is violated: `[T]` requires
`size_of_val = size_of::<T>() * len` and `align_of_val = align_of::<T>()`;
`str` requires `size_of_val = len` and alignment `1`.  When the check passes
it returns `Slice` with the value's element count. -/
theorem meta_invariant_check (esize ealign : Nat) (p q : SlicePtr)
    (sz al sz2 al2 : Nat) :
    (SliceImpl.meta esize ealign p sz al = some ⟨p.len⟩ ↔
      (sz = esize * p.len ∧ al = ealign)) ∧
    (¬(sz = esize * p.len ∧ al = ealign) →
      SliceImpl.meta esize ealign p sz al = none) ∧
    (StrImpl.meta q sz2 al2 = some ⟨q.len⟩ ↔ (sz2 = q.len ∧ al2 = 1)) ∧
    (¬(sz2 = q.len ∧ al2 = 1) → StrImpl.meta q sz2 al2 = none) := by
  refine ⟨?_, ?_, ?_, ?_⟩
  · constructor
    · intro hm
      by_cases h : (sz, al) = (esize * p.len, ealign)
      · simpa [Prod.ext_iff] using h
      · simp [SliceImpl.meta, h] at hm
    · rintro ⟨h1, h2⟩
      subst h1
      subst h2
      simp [SliceImpl.meta]
  · intro h
    have h2 : ((sz, al) = (esize * p.len, ealign)) → False := fun hc =>
      h (by simpa [Prod.ext_iff] using hc)
    simp [SliceImpl.meta, h2]
    exact fun ha hb => h ⟨ha, hb⟩
  · constructor
    · intro hm
      by_cases h : (sz2, al2) = (q.len, 1)
      · simpa [Prod.ext_iff] using h
      · simp [StrImpl.meta, h] at hm
    · rintro ⟨h1, h2⟩
      subst h1
      subst h2
      simp [StrImpl.meta]
  · intro h
    have h2 : ((sz2, al2) = (q.len, 1)) → False := fun hc =>
      h (by simpa [Prod.ext_iff] using hc)
    simp [StrImpl.meta, h2]
    exact fun ha hb => h ⟨ha, hb⟩

/-- Witness for C5: a well-laid-out 3-element slice of 4-byte elements passes
the check; a mismatched size or alignment faults. -/
theorem meta_invariant_check_witness :
    SliceImpl.meta 4 4 ⟨100, 3⟩ 12 4 = some ⟨3⟩ ∧
    SliceImpl.meta 4 4 ⟨100, 3⟩ 13 4 = none ∧
    StrImpl.meta ⟨100, 3⟩ 3 1 = some ⟨3⟩ ∧
    StrImpl.meta ⟨100, 3⟩ 3 2 = none := by
  refine ⟨(meta_invariant_check 4 4 ⟨100, 3⟩ ⟨100, 3⟩ 12 4 3 1).1.mpr
      (by decide),
    (meta_invariant_check 4 4 ⟨100, 3⟩ ⟨100, 3⟩ 13 4 3 1).2.1 (by decide),
    (meta_invariant_check 4 4 ⟨100, 3⟩ ⟨100, 3⟩ 12 4 3 1).2.2.1.mpr
      (by decide),
    (meta_invariant_check 4 4 ⟨100, 3⟩ ⟨100, 3⟩ 12 4 3 2).2.2.2 (by decide)⟩

/-- C6: `dangling` never returns a null address and the address is a multiple
of the type's true minimum alignment, for every shape: the sized impl uses
`NonNull::dangling()` (address `align_of::<T>()`), the `[T]` impl uses
`NonNull::<T>::dangling()` combined with the requested length, `str` goes
through `[u8]`, and the trait-object default probes the backing type's
alignment through a fake reference and uses that alignment value as the
address.  Alignments in Rust are always at least 1, and the static `BACKING`
has a non-null address — these are the hypotheses. -/
theorem dangling_nonnull_aligned (calign ealign backing : Nat) (t : Slice)
    (m : Concrete) (vt : VTable) (hc : 1 ≤ calign) (he : 1 ≤ ealign)
    (hb : backing ≠ 0) (hv : 1 ≤ vt.align) :
    (SizedImpl.dangling calign m ≠ 0 ∧ calign ∣ SizedImpl.dangling calign m) ∧
    ((SliceImpl.dangling ealign t).addr ≠ 0 ∧
      ealign ∣ (SliceImpl.dangling ealign t).addr ∧
      (SliceImpl.dangling ealign t).len = t.len) ∧
    ((StrImpl.dangling t).addr ≠ 0 ∧ (StrImpl.dangling t).len = t.len) ∧
    (DynImpl.dangling backing ⟨vt⟩ = Except.ok ⟨vt.align, vt⟩ ∧
      vt.align ≠ 0 ∧ vt.align ∣ vt.align) := by
  have hv0 : vt.align ≠ 0 := by omega
  refine ⟨⟨by simp [SizedImpl.dangling]; omega,
      dvd_refl _⟩,
    ⟨by simp [SliceImpl.dangling]; omega, dvd_refl _, rfl⟩,
    ⟨by simp [StrImpl.dangling, SliceImpl.dangling], rfl⟩, ?_, hv0, dvd_refl _⟩
  simp [DynImpl.dangling, DynImpl.fatten, DynImpl.align_of_val,
    transmute_coerce, MutPtrUnitLayout, DynMetadataLayout, ptrSize, ptrAlign,
    Except.map, hb, hv0]

/-- Witness for C6 at a concrete alignment/length/backing address. -/
theorem dangling_nonnull_aligned_witness :
    SizedImpl.dangling 4 ⟨⟩ ≠ 0 ∧
    (SliceImpl.dangling 8 ⟨5⟩).len = 5 ∧
    DynImpl.dangling 64 ⟨⟨16, 4⟩⟩ = Except.ok ⟨4, ⟨16, 4⟩⟩ := by
  have h := dangling_nonnull_aligned 4 8 64 ⟨5⟩ ⟨⟩ ⟨16, 4⟩ (by decide)
    (by decide) (by decide) (by decide)
  exact ⟨h.1.1, h.2.1.2.2, h.2.2.2.1⟩

/-- C7: `transmute_coerce` checks that the two types have equal size and equal
alignment; on mismatch it fails with a message naming both type names, and
when the check passes it returns the input bits reinterpreted as the
destination type. -/
theorem transmute_coerce_spec {α : Type} (A B : RustLayout) (a : α) :
    ((A.size, A.align) = (B.size, B.align) →
      transmute_coerce A B a = Except.ok a) ∧
    ((A.size, A.align) ≠ (B.size, B.align) →
      transmute_coerce A B a = Except.error
        ("cant transmute_coerce " ++ A.name ++ " to " ++ B.name ++
          " as sizes/alignments differ")) := by
  constructor
  · intro h
    simp [transmute_coerce, h]
  · intro h
    simp [transmute_coerce, h]

/-- Witness for C7: equal layouts pass; a size mismatch produces the error
naming both types. -/
theorem transmute_coerce_spec_witness :
    transmute_coerce ⟨"A", 8, 8⟩ ⟨"B", 8, 8⟩ (42 : Nat) = Except.ok 42 ∧
    transmute_coerce ⟨"A", 8, 8⟩ ⟨"B", 4, 8⟩ (42 : Nat) = Except.error
      ("cant transmute_coerce " ++ "A" ++ " to " ++ "B" ++
        " as sizes/alignments differ") :=
  ⟨(transmute_coerce_spec ⟨"A", 8, 8⟩ ⟨"B", 8, 8⟩ (42 : Nat)).1 (by decide),
    (transmute_coerce_spec ⟨"A", 8, 8⟩ ⟨"B", 4, 8⟩ (42 : Nat)).2 (by decide)⟩

/-- C8: `type_coerce` returns the value when the two type parameters are the
identical type, and otherwise fails fatally with an error message naming both
type names; the failure happens exactly when `try_type_coerce` returns
`None`. -/
theorem type_coerce_spec (A B : Ty) (a : Val A) :
    (∀ h : A = B, type_coerce A B a = Except.ok (cast (congrArg Val h) a)) ∧
    (A ≠ B → type_coerce A B a = Except.error
      ("cant coerce " ++ tyName A ++ " to " ++ tyName B)) ∧
    ((∃ e, type_coerce A B a = Except.error e) ↔
      try_type_coerce A B a = none) := by
  refine ⟨?_, ?_, ?_⟩
  · intro h
    subst h
    rw [type_coerce, try_type_coerce, dif_pos rfl]
  · intro h
    rw [type_coerce, try_type_coerce, dif_neg h]
  · by_cases h : A = B
    · subst h
      rw [type_coerce, try_type_coerce, dif_pos rfl]
      simp
    · rw [type_coerce, try_type_coerce, dif_neg h]
      simp

/-- Witness for C8: `type_coerce::<i32, i32>(5)` returns 5;
`type_coerce::<i32, i64>(5)` fails with the message naming `i32` and `i64`,
in agreement with `try_type_coerce` returning `None`. -/
theorem type_coerce_spec_witness :
    type_coerce (Ty.int 32) (Ty.int 32) (5 : Int) = Except.ok (5 : Int) ∧
    type_coerce (Ty.int 32) (Ty.int 64) (5 : Int) =
      Except.error "cant coerce i32 to i64" := by
  constructor
  · have h := (type_coerce_spec (Ty.int 32) (Ty.int 32) (5 : Int)).1 rfl
    simpa using h
  · have h := (type_coerce_spec (Ty.int 32) (Ty.int 64) (5 : Int)).2.1
      (by decide)
    exact h

/-- C9: `type_id` is a pure total function with no failure mode: it is
exactly the result of feeding the language's canonical type-identity token
for `T` into the fixed deterministic hasher (create, write the token,
finish), so within one execution two calls with the same type return the same
value. -/
theorem type_id_deterministic (typeIdOf : Ty → Nat) (newState : Nat)
    (write : Nat → Nat → Nat) (finish : Nat → Nat) (t u : Ty) :
    type_id typeIdOf newState write finish t =
      finish (write newState (typeIdOf t)) ∧
    (t = u → type_id typeIdOf newState write finish t =
      type_id typeIdOf newState write finish u) :=
  ⟨rfl, fun h => by rw [h]⟩

/-- Witness for C9 with a concrete token assignment and hasher. -/
theorem type_id_deterministic_witness :
    type_id (fun _ => 7) 0 (fun a b => a + b) (fun x => x) Ty.strT = 7 ∧
    type_id (fun _ => 7) 0 (fun a b => a + b) (fun x => x) Ty.strT =
      type_id (fun _ => 7) 0 (fun a b => a + b) (fun x => x) Ty.strT := by
  constructor
  · have h := (type_id_deterministic (fun _ => 7) 0 (fun a b => a + b)
      (fun x => x) Ty.strT Ty.strT).1
    simpa using h
  · exact (type_id_deterministic (fun _ => 7) 0 (fun a b => a + b)
      (fun x => x) Ty.strT Ty.strT).2 rfl

/-- C10: for the `Slice` shape, `dangling` and `fatten` validate nothing
about the requested length: for every `len` (however large) they succeed —
they are total and perform no assertion, unlike `meta` — and report exactly
the requested length; `dangling` stays non-null (its address is the element
alignment, at least 1). -/
theorem slice_dangling_fatten_unvalidated (ealign len thin : Nat) :
    (SliceImpl.dangling ealign ⟨len⟩).len = len ∧
    (SliceImpl.fatten thin ⟨len⟩).addr = thin ∧
    (SliceImpl.fatten thin ⟨len⟩).len = len ∧
    (StrImpl.dangling ⟨len⟩).len = len ∧
    (StrImpl.dangling ⟨len⟩).addr = 1 ∧
    (StrImpl.fatten thin ⟨len⟩).addr = thin ∧
    (StrImpl.fatten thin ⟨len⟩).len = len ∧
    (1 ≤ ealign → (SliceImpl.dangling ealign ⟨len⟩).addr ≠ 0) :=
  ⟨rfl, rfl, rfl, rfl, rfl, rfl, rfl, fun he => by
    simp [SliceImpl.dangling]; omega⟩

/-- Witness for C10 at an astronomically large length that no allocation
could back. -/
theorem slice_dangling_fatten_unvalidated_witness :
    (SliceImpl.dangling 1 ⟨10 ^ 30⟩).len = 10 ^ 30 ∧
    (SliceImpl.fatten 7 ⟨10 ^ 30⟩).len = 10 ^ 30 ∧
    (SliceImpl.dangling 1 ⟨10 ^ 30⟩).addr ≠ 0 := by
  have h := slice_dangling_fatten_unvalidated 1 (10 ^ 30) 7
  exact ⟨h.1, h.2.2.1, h.2.2.2.2.2.2.2 (by decide)⟩

end Metatype
